import Mathlib

/-!
Shallow embedding of the settlement and ledger-posting core of `src/app.py`
(a Flask + SQLAlchemy personal-finance application).

Modelling conventions:
* The durable store (SQLite tables `user`, `account`, `creditor`, `transaction`,
  `pending_item`) is a record of lists, one per table, in insertion order.
* Autoincrement primary keys: rows are never deleted, so a freshly inserted row
  of a table with `n` rows receives id `n + 1`.
* Monetary values (Python `float`) are embedded as exact rationals `Rat`; the
  arithmetic performed by the code (`+`, `-`, `abs`) is modelled exactly.
* The `uid` columns (`gen_uid`) are random display codes with no behaviour;
  no claim mentions them, so they are omitted from the record types.
* `werkzeug.generate_password_hash` is opaque to the core; it is modelled as a
  tagging function on strings.
* Each Flask handler becomes a function from store to store (plus, where a
  claim needs it, the HTTP-visible outcome).  `db.session` mutation followed by
  `db.session.commit()` is the returned store; an uncaught Python exception
  (e.g. `None.balance` when a foreign key dangles) aborts the request before
  `commit()`, so the store is returned unchanged with a `serverError` outcome.
-/

namespace Financas

/-- Row of table `user` (`class User`, app.py:27-30). -/
structure User where
  id : Nat
  username : String
  password_hash : String
deriving DecidableEq, Repr

/-- Row of table `account` (`class Account`, app.py:33-37). -/
structure Account where
  id : Nat
  name : String
  balance : Rat
deriving DecidableEq, Repr

/-- Row of table `creditor` (`class Creditor`, app.py:40-44). -/
structure Creditor where
  id : Nat
  name : String
  ctype : String
deriving DecidableEq, Repr

/-- Row of table `transaction` (`class Transaction`, app.py:47-54). -/
structure Transaction where
  id : Nat
  account_id : Nat
  description : String
  amount : Rat
  tdate : String
deriving DecidableEq, Repr

/-- Row of table `pending_item` (`class PendingItem`, app.py:57-74).
Statuses are the literal strings of the code: "ABERTO" (the spec's OPEN) and
"PAGO" (the spec's SETTLED); kinds are "PAGAR" (PAYABLE), "RECEBER"
(RECEIVABLE), "EMPRESTIMO" (LOAN). -/
structure PendingItem where
  id : Nat
  kind : String
  status : String
  title : String
  due_date : String
  amount : Rat
  account_id : Nat
  creditor_id : Option Nat
  paid_amount : Option Rat
  diff_interest_or_discount : Option Rat
deriving DecidableEq, Repr

/-- The durable store: one list per table, in insertion order. -/
structure St where
  users : List User
  accounts : List Account
  creditors : List Creditor
  transactions : List Transaction
  pendings : List PendingItem
deriving DecidableEq, Repr

/-- The store of a freshly created database (`db.create_all` on a new file). -/
def St.empty : St := ⟨[], [], [], [], []⟩

/-- `User.query.filter_by(username=u).first()` (app.py:83). -/
def findUserByName (s : St) (u : String) : Option User :=
  s.users.find? (fun x => x.username == u)

/-- `db.session.get(Account, i)` — primary-key lookup (app.py:198). -/
def getAccount (s : St) (i : Nat) : Option Account :=
  s.accounts.find? (fun a => a.id == i)

/-- `db.session.get(PendingItem, i)` — primary-key lookup (app.py:189). -/
def getPending (s : St) (i : Nat) : Option PendingItem :=
  s.pendings.find? (fun p => p.id == i)

/-- Opaque model of `werkzeug.security.generate_password_hash`. -/
def password_hash_of (pw : String) : String := "pbkdf2:" ++ pw

/-- `bootstrap_defaults` (app.py:82-87): insert the admin user if no user named
"admin" exists, insert a default account if the account table is empty, then
commit. -/
def bootstrap_defaults (s : St) : St :=
  let s1 :=
    if (findUserByName s "admin").isSome then s
    else { s with users :=
            s.users ++ [⟨s.users.length + 1, "admin", password_hash_of "admin123"⟩] }
  if s1.accounts.length = 0 then
    { s1 with accounts :=
        s1.accounts ++ [⟨s1.accounts.length + 1, "Conta Principal", 0⟩] }
  else s1

/-- The HTTP-visible outcome of a mutating handler.  Every non-crashing path of
`pendencias_create` and `pendencias_pay` ends in
`return redirect(url_for("pendencias"))`; a dangling `account_id` in
`pendencias_pay` makes `acc.balance` raise `AttributeError` on `None`, the
request aborts with HTTP 500 and the uncommitted session is rolled back. -/
inductive Response
  | redirectPendencias
  | serverError
deriving DecidableEq, Repr

/-- `pendencias_create` (app.py:163-183): builds the `PendingItem` directly from
the form fields and commits it.  The handler performs no validation of
`amount`, `kind`, `account_id` or `creditor_id`; SQLite foreign keys are not
enforced by the default SQLAlchemy configuration, so a dangling `account_id`
commits successfully.  New rows get `status = "ABERTO"` (column default) and
`paid_amount` / `diff_interest_or_discount` unset. -/
def pendencias_create (s : St) (title due_date : String) (amount : Rat)
    (kind : String) (account_id : Nat) (creditor_id : Option Nat) :
    St × Response :=
  ({ s with pendings := s.pendings ++
      [⟨s.pendings.length + 1, kind, "ABERTO", title, due_date, amount,
        account_id, creditor_id, none, none⟩] },
   .redirectPendencias)

/-- The signed transaction amount of a settlement (app.py:200-203):
`-abs(paid)` for kinds "PAGAR" and "EMPRESTIMO", `abs(paid)` for every other
kind string. -/
def trxAmount (kind : String) (paid : Rat) : Rat :=
  if kind = "PAGAR" ∨ kind = "EMPRESTIMO" then -|paid| else |paid|

/-- `pendencias_pay` (app.py:186-216).  If the obligation is missing or already
"PAGO" the handler immediately redirects, touching nothing.  Otherwise it sets
`paid_amount`, `diff_interest_or_discount = paid - amount` and
`status = "PAGO"` on the obligation, adds `trxAmount` to the account balance,
appends one transaction row, and commits.  When the obligation's `account_id`
resolves to no account the handler crashes before commit (see `Response`), so
the store is unchanged. -/
def pendencias_pay (s : St) (pending_id : Nat) (paid_amount : Rat)
    (today : String) : St × Response :=
  match getPending s pending_id with
  | none => (s, .redirectPendencias)
  | some p =>
    if p.status = "PAGO" then (s, .redirectPendencias)
    else
      match getAccount s p.account_id with
      | none => (s, .serverError)
      | some acc =>
        let amt := trxAmount p.kind paid_amount
        let p' : PendingItem :=
          { p with paid_amount := some paid_amount,
                   diff_interest_or_discount := some (paid_amount - p.amount),
                   status := "PAGO" }
        let acc' : Account := { acc with balance := acc.balance + amt }
        let trx : Transaction :=
          ⟨s.transactions.length + 1, acc.id,
           "[" ++ p.kind ++ "] " ++ p.title, amt, today⟩
        ({ s with
            pendings := s.pendings.map (fun q => if q.id = p.id then p' else q),
            accounts := s.accounts.map (fun a => if a.id = acc.id then acc' else a),
            transactions := s.transactions ++ [trx] },
         .redirectPendencias)

/-- `contas_create` (app.py:235-242): inserts an account whose balance is the
requested opening balance; no transaction row is posted. -/
def contas_create (s : St) (name : String) (opening_balance : Rat) : St :=
  { s with accounts :=
      s.accounts ++ [⟨s.accounts.length + 1, name, opening_balance⟩] }

/-- `credores_create` (app.py:259-266). -/
def credores_create (s : St) (name ctype : String) : St :=
  { s with creditors := s.creditors ++ [⟨s.creditors.length + 1, name, ctype⟩] }

/-- The KPI block computed by `dashboard` (app.py:126-132). -/
structure Kpis where
  saldo_total : Rat
  pendencias_abertas : Nat
  credores : Nat
deriving DecidableEq, Repr

/-- The reads of `dashboard` (app.py:126-132): `sum(a.balance for a in contas)`,
`PendingItem.query.filter(PendingItem.status != "PAGO").count()`,
`Creditor.query.count()`. -/
def dashboard_kpis (s : St) : Kpis :=
  ⟨(s.accounts.map (fun a => a.balance)).sum,
   (s.pendings.filter (fun p => p.status != "PAGO")).length,
   s.creditors.length⟩

/-- `Transaction.query.order_by(Transaction.id.desc()).limit(10).all()`
(app.py:130).  Transaction rows are appended with ascending ids, so descending
id order is the reverse of insertion order. -/
def ultimas (s : St) (limit : Nat) : List Transaction :=
  s.transactions.reverse.take limit

/-- A full dashboard request: the `before_request` hook `ensure_db`
(app.py:90-93) runs `db.create_all()` (schema only — no data change on an
existing database) and `bootstrap_defaults()`, then the read-only handler body
renders the KPIs and the ten most recent transactions. -/
def dashboard_request (s : St) : St × Kpis × List Transaction :=
  let s' := bootstrap_defaults s
  (s', dashboard_kpis s', ultimas s' 10)

/-- The store produced by the success path of `pendencias_pay` (app.py:193-215),
named so lemmas can refer to it. -/
def paySuccState (s : St) (p : PendingItem) (acc : Account) (paid : Rat)
    (today : String) : St :=
  { s with
      pendings := s.pendings.map (fun q => if q.id = p.id then
        { p with paid_amount := some paid,
                 diff_interest_or_discount := some (paid - p.amount),
                 status := "PAGO" } else q),
      accounts := s.accounts.map (fun a => if a.id = acc.id then
        { acc with balance := acc.balance + trxAmount p.kind paid } else a),
      transactions := s.transactions ++
        [⟨s.transactions.length + 1, acc.id, "[" ++ p.kind ++ "] " ++ p.title,
          trxAmount p.kind paid, today⟩] }

/-- One state transition of the system: a mutating request (each request is
preceded by the `ensure_db` hook, itself a `bootstrap_defaults` step). -/
inductive Step : St → St → Prop
  | bootstrap (s : St) : Step s (bootstrap_defaults s)
  | contas (s : St) (name : String) (ob : Rat) : Step s (contas_create s name ob)
  | credores (s : St) (name ctype : String) :
      Step s (credores_create s name ctype)
  | pend (s : St) (title dd : String) (amt : Rat) (kind : String) (aid : Nat)
      (cid : Option Nat) : Step s (pendencias_create s title dd amt kind aid cid).1
  | pay (s : St) (pid : Nat) (amt : Rat) (today : String) :
      Step s (pendencias_pay s pid amt today).1

/-- Reachable stores: everything obtainable from a fresh database by requests. -/
inductive Reach : St → Prop
  | init : Reach St.empty
  | step {s s' : St} : Reach s → Step s s' → Reach s'

/-- Well-formedness of the account table: ids are bounded by the row count and
identify rows uniquely (autoincrement primary keys). -/
def accListOk (l : List Account) : Prop :=
  ∀ a ∈ l, a.id ≤ l.length ∧ ∀ b ∈ l, b.id = a.id → b = a

/-- Well-formedness of the obligation table: a row that is not "PAGO" has
`paid_amount` and `diff_interest_or_discount` unset. -/
def pendListOk (l : List PendingItem) : Prop :=
  ∀ p ∈ l, p.status ≠ "PAGO" →
    p.paid_amount = none ∧ p.diff_interest_or_discount = none

/-- Sum of the amounts of all transactions posted against account `i`
(the spec's "sum(transaction.amount for transaction in transactions where
transaction.account == account)"). -/
def trxSum (s : St) (i : Nat) : Rat :=
  ((s.transactions.filter (fun t => t.account_id == i)).map
    (fun t => t.amount)).sum

/-- Modelled from the spec's words for the Reporting Facade:
"totalBalance() -> sum of all Account.balance". -/
def spec_totalBalance (s : St) : Rat :=
  s.accounts.foldr (fun a r => a.balance + r) 0

/-- Modelled from the spec's words for the Pending Obligation Tracker:
"countOpen() -> integer (status ≠ SETTLED)", SETTLED being "PAGO". -/
def spec_openObligationCount (s : St) : Nat :=
  s.pendings.countP (fun p => decide (¬ p.status = "PAGO"))

/-- Sample store: the bootstrap ran on a fresh database. -/
def sBoot : St := bootstrap_defaults St.empty

/-- Sample store: one open "PAGAR" obligation of 100 against account 1. -/
def sPend : St :=
  (pendencias_create sBoot "Conta de luz" "2026-01-10" 100 "PAGAR" 1 none).1

/-- Sample store: that obligation settled with a paid amount of 120. -/
def sPaid : St := (pendencias_pay sPend 1 120 "2026-01-12").1

/-- Sample store: an account created directly with opening balance 100. -/
def sOpen : St := contas_create St.empty "Poupanca" 100

/-- Sample store: one open obligation of an undocumented kind "CARTAO". -/
def sPendOther : St :=
  (pendencias_create sBoot "Fatura" "2026-03-01" 40 "CARTAO" 1 none).1

lemma getPending_some {s : St} {pid : Nat} {p : PendingItem}
    (h : getPending s pid = some p) : p ∈ s.pendings ∧ p.id = pid := by
  refine ⟨List.mem_of_find?_eq_some h, ?_⟩
  simpa using List.find?_some h

lemma getAccount_some {s : St} {i : Nat} {a : Account}
    (h : getAccount s i = some a) : a ∈ s.accounts ∧ a.id = i := by
  refine ⟨List.mem_of_find?_eq_some h, ?_⟩
  simpa using List.find?_some h

lemma pendencias_pay_notFound {s : St} {pid : Nat} (paid : Rat) (today : String)
    (h : getPending s pid = none) :
    pendencias_pay s pid paid today = (s, .redirectPendencias) := by
  unfold pendencias_pay
  rw [h]

lemma pendencias_pay_alreadyPaid {s : St} {pid : Nat} {p : PendingItem}
    (paid : Rat) (today : String)
    (hp : getPending s pid = some p) (hst : p.status = "PAGO") :
    pendencias_pay s pid paid today = (s, .redirectPendencias) := by
  unfold pendencias_pay
  rw [hp]
  simp [hst]

lemma pendencias_pay_noAccount {s : St} {pid : Nat} {p : PendingItem}
    (paid : Rat) (today : String)
    (hp : getPending s pid = some p) (hst : ¬ p.status = "PAGO")
    (ha : getAccount s p.account_id = none) :
    pendencias_pay s pid paid today = (s, .serverError) := by
  unfold pendencias_pay
  rw [hp]
  simp [hst, ha]

lemma pendencias_pay_success {s : St} {pid : Nat} {p : PendingItem}
    {acc : Account} (paid : Rat) (today : String)
    (hp : getPending s pid = some p) (hst : ¬ p.status = "PAGO")
    (ha : getAccount s p.account_id = some acc) :
    pendencias_pay s pid paid today =
      (paySuccState s p acc paid today, .redirectPendencias) := by
  unfold pendencias_pay
  rw [hp]
  simp [hst, ha, paySuccState]

lemma pendencias_pay_fst_cases (s : St) (pid : Nat) (paid : Rat) (today : String) :
    (pendencias_pay s pid paid today).1 = s ∨
    ∃ p acc, getPending s pid = some p ∧ ¬ p.status = "PAGO" ∧
      getAccount s p.account_id = some acc ∧
      (pendencias_pay s pid paid today).1 = paySuccState s p acc paid today := by
  rcases h : getPending s pid with _ | p
  · left; rw [pendencias_pay_notFound paid today h]
  · by_cases hst : p.status = "PAGO"
    · left; rw [pendencias_pay_alreadyPaid paid today h hst]
    · rcases ha : getAccount s p.account_id with _ | acc
      · left; rw [pendencias_pay_noAccount paid today h hst ha]
      · right
        refine ⟨p, acc, ?_, hst, ?_, by rw [pendencias_pay_success paid today h hst ha]⟩
        · rfl
        · exact ha

lemma bootstrap_defaults_accounts (s : St) :
    (bootstrap_defaults s).accounts =
      if s.accounts.length = 0 then
        s.accounts ++ [⟨s.accounts.length + 1, "Conta Principal", 0⟩]
      else s.accounts := by
  unfold bootstrap_defaults
  by_cases h : (findUserByName s "admin").isSome <;> simp [h] <;> split <;> rfl

lemma bootstrap_defaults_transactions (s : St) :
    (bootstrap_defaults s).transactions = s.transactions := by
  unfold bootstrap_defaults
  by_cases h : (findUserByName s "admin").isSome <;> simp [h] <;> split <;> rfl

lemma bootstrap_defaults_pendings (s : St) :
    (bootstrap_defaults s).pendings = s.pendings := by
  unfold bootstrap_defaults
  by_cases h : (findUserByName s "admin").isSome <;> simp [h] <;> split <;> rfl

lemma accListOk_snoc {l : List Account} (ih : accListOk l) {a : Account}
    (ha : a.id = l.length + 1) : accListOk (l ++ [a]) := by
  intro x hx
  rcases List.mem_append.mp hx with hx | hx
  · obtain ⟨hb, hinj⟩ := ih x hx
    refine ⟨by simp; omega, ?_⟩
    intro b hb'
    rcases List.mem_append.mp hb' with hb' | hb'
    · exact hinj b hb'
    · simp only [List.mem_singleton] at hb'
      subst hb'
      intro he
      omega
  · simp only [List.mem_singleton] at hx
    subst hx
    refine ⟨by simp [ha], ?_⟩
    intro b hb'
    rcases List.mem_append.mp hb' with hb' | hb'
    · intro he
      exfalso
      have := (ih b hb').1
      omega
    · simp only [List.mem_singleton] at hb'
      subst hb'
      intro _
      rfl

lemma accListOk_map {l : List Account} (ih : accListOk l) {f : Account → Account}
    (hf : ∀ a, (f a).id = a.id) : accListOk (l.map f) := by
  intro x hx
  obtain ⟨a, ha, rfl⟩ := List.mem_map.mp hx
  constructor
  · rw [hf a, List.length_map]
    exact (ih a ha).1
  · intro b hb
    obtain ⟨c, hc, rfl⟩ := List.mem_map.mp hb
    rw [hf a, hf c]
    intro he
    rw [(ih a ha).2 c hc he]

lemma reach_accListOk {s : St} (h : Reach s) : accListOk s.accounts := by
  induction h with
  | init => intro a ha; simp [St.empty] at ha
  | step _ hS ih =>
    cases hS with
    | bootstrap =>
      rw [bootstrap_defaults_accounts]
      split
      · exact accListOk_snoc ih rfl
      · exact ih
    | contas name ob => exact accListOk_snoc ih rfl
    | credores name ctype => exact ih
    | pend title dd amt kind aid cid => exact ih
    | pay pid amt today =>
      rcases pendencias_pay_fst_cases _ pid amt today with hcase | ⟨p, acc, _, _, _, hcase⟩
      · rw [hcase]; exact ih
      · rw [hcase]
        apply accListOk_map ih
        intro a
        by_cases hid : a.id = acc.id <;> simp [paySuccState, hid]

lemma reach_pendListOk {s : St} (h : Reach s) : pendListOk s.pendings := by
  induction h with
  | init => intro p hp; simp [St.empty] at hp
  | step _ hS ih =>
    cases hS with
    | bootstrap => rw [bootstrap_defaults_pendings]; exact ih
    | contas name ob => exact ih
    | credores name ctype => exact ih
    | pend title dd amt kind aid cid =>
      intro p hp
      rcases List.mem_append.mp hp with hp | hp
      · exact ih p hp
      · simp only [List.mem_singleton] at hp
        subst hp
        intro _
        exact ⟨rfl, rfl⟩
    | pay pid amt today =>
      rcases pendencias_pay_fst_cases _ pid amt today with hcase | ⟨p, acc, _, _, _, hcase⟩
      · rw [hcase]; exact ih
      · rw [hcase]
        intro q hq
        simp only [paySuccState] at hq
        obtain ⟨q0, hq0, rfl⟩ := List.mem_map.mp hq
        by_cases hid : q0.id = p.id
        · simp only [if_pos hid]
          intro hst
          exact absurd rfl hst
        · simp only [if_neg hid]
          exact ih q0 hq0

lemma getAccount_paySucc (s : St) (p : PendingItem) (acc : Account) (paid : Rat)
    (today : String) (i : Nat) :
    getAccount (paySuccState s p acc paid today) i =
      Option.map (fun a => if a.id = acc.id then
          { acc with balance := acc.balance + trxAmount p.kind paid } else a)
        (getAccount s i) := by
  unfold getAccount paySuccState
  rw [List.find?_map]
  have hfun :
      ((fun a : Account => a.id == i) ∘ fun a : Account =>
        if a.id = acc.id then
          { acc with balance := acc.balance + trxAmount p.kind paid } else a) =
      (fun a : Account => a.id == i) := by
    funext a
    by_cases hid : a.id = acc.id <;> simp [Function.comp, hid]
  rw [hfun]

lemma getPending_paySucc (s : St) (p : PendingItem) (acc : Account) (paid : Rat)
    (today : String) (i : Nat) :
    getPending (paySuccState s p acc paid today) i =
      Option.map (fun q => if q.id = p.id then
          { p with paid_amount := some paid,
                   diff_interest_or_discount := some (paid - p.amount),
                   status := "PAGO" } else q)
        (getPending s i) := by
  unfold getPending paySuccState
  rw [List.find?_map]
  have hfun :
      ((fun q : PendingItem => q.id == i) ∘ fun q : PendingItem =>
        if q.id = p.id then
          { p with paid_amount := some paid,
                   diff_interest_or_discount := some (paid - p.amount),
                   status := "PAGO" } else q) =
      (fun q : PendingItem => q.id == i) := by
    funext q
    by_cases hid : q.id = p.id <;> simp [Function.comp, hid]
  rw [hfun]

lemma trxSum_paySucc (s : St) (p : PendingItem) (acc : Account) (paid : Rat)
    (today : String) (i : Nat) :
    trxSum (paySuccState s p acc paid today) i =
      trxSum s i + (if acc.id = i then trxAmount p.kind paid else 0) := by
  unfold trxSum paySuccState
  rw [List.filter_append, List.map_append, List.sum_append]
  by_cases hacc : acc.id = i <;> simp [hacc]

lemma bootstrap_defaults_users (s : St) :
    (bootstrap_defaults s).users =
      if (findUserByName s "admin").isSome then s.users
      else s.users ++
        [⟨s.users.length + 1, "admin", password_hash_of "admin123"⟩] := by
  unfold bootstrap_defaults
  by_cases h : (findUserByName s "admin").isSome <;> simp [h] <;> split <;> rfl

lemma bootstrap_defaults_noop {s : St}
    (hu : (findUserByName s "admin").isSome) (hacc : s.accounts ≠ []) :
    bootstrap_defaults s = s := by
  unfold bootstrap_defaults
  simp [hu, hacc]

lemma bootstrap_defaults_admin (s : St) :
    (findUserByName (bootstrap_defaults s) "admin").isSome := by
  unfold findUserByName
  rw [bootstrap_defaults_users s]
  by_cases h : (findUserByName s "admin").isSome
  · rw [if_pos h]
    unfold findUserByName at h
    exact h
  · rw [if_neg h, List.find?_append]
    have hn : s.users.find? (fun x => x.username == "admin") = none := by
      unfold findUserByName at h
      exact Option.not_isSome_iff_eq_none.mp h
    simp [hn]

lemma bootstrap_defaults_accounts_ne (s : St) :
    (bootstrap_defaults s).accounts ≠ [] := by
  rw [bootstrap_defaults_accounts]
  split
  · simp
  · intro hc
    simp [hc] at *

/-- C1: settling an OPEN ("ABERTO") obligation posts exactly one transaction
whose amount is `-|paidAmount|` when the obligation's kind is "PAGAR" (PAYABLE)
or "EMPRESTIMO" (LOAN) and `+|paidAmount|` when the kind is "RECEBER"
(RECEIVABLE), and adjusts the owning account's balance by exactly that signed
amount. -/
theorem settle_posts_signed_movement (s : St) (pid : Nat) (paid : Rat)
    (today : String) (p : PendingItem) (acc : Account)
    (hp : getPending s pid = some p) (hopen : p.status = "ABERTO")
    (ha : getAccount s p.account_id = some acc) :
    (pendencias_pay s pid paid today).1.transactions =
      s.transactions ++
        [⟨s.transactions.length + 1, acc.id, "[" ++ p.kind ++ "] " ++ p.title,
          trxAmount p.kind paid, today⟩] ∧
    getAccount (pendencias_pay s pid paid today).1 acc.id =
      some { acc with balance := acc.balance + trxAmount p.kind paid } ∧
    ((p.kind = "PAGAR" ∨ p.kind = "EMPRESTIMO") →
      trxAmount p.kind paid = -|paid|) ∧
    (p.kind = "RECEBER" → trxAmount p.kind paid = |paid|) := by
  have hstat : ¬ p.status = "PAGO" := by rw [hopen]; decide
  obtain ⟨haccmem, haccid⟩ := getAccount_some ha
  rw [pendencias_pay_success paid today hp hstat ha]
  refine ⟨rfl, ?_, ?_, ?_⟩
  · dsimp only
    rw [getAccount_paySucc, haccid, ha]
    simp [haccid]
  · intro hk
    unfold trxAmount
    rw [if_pos hk]
  · intro hk
    unfold trxAmount
    rw [if_neg (by rw [hk]; decide)]

/-- C1 witness: in the sample store with one open "PAGAR" obligation of 100
settled with 120, the posted transaction carries `trxAmount "PAGAR" 120`,
which equals `-|120|`, and the account moves by exactly that amount. -/
theorem settle_posts_signed_movement_witness :
    sPaid.transactions = sPend.transactions ++
      [⟨sPend.transactions.length + 1, 1, "[PAGAR] Conta de luz",
        trxAmount "PAGAR" 120, "2026-01-12"⟩] ∧
    getAccount sPaid 1 =
      some ⟨1, "Conta Principal", (0 : Rat) + trxAmount "PAGAR" 120⟩ ∧
    trxAmount "PAGAR" 120 = -|(120 : Rat)| := by
  obtain ⟨h1, h2, h3, _⟩ :=
    settle_posts_signed_movement sPend 1 120 "2026-01-12"
      ⟨1, "PAGAR", "ABERTO", "Conta de luz", "2026-01-10", 100, 1, none, none, none⟩
      ⟨1, "Conta Principal", 0⟩ (by decide) rfl (by decide)
  exact ⟨h1, h2, h3 (Or.inl rfl)⟩

/-- C2 (amended): settling an obligation whose status is already "PAGO" is a
silent no-op — the store is returned unchanged (zero transactions posted, no
balance or obligation change) and the handler answers with the same plain
redirect as a successful settlement; no AlreadySettled conflict is reported. -/
theorem settle_settled_silent_noop (s : St) (pid : Nat) (paid : Rat)
    (today : String) (p : PendingItem)
    (hp : getPending s pid = some p) (hst : p.status = "PAGO") :
    pendencias_pay s pid paid today = (s, Response.redirectPendencias) :=
  pendencias_pay_alreadyPaid paid today hp hst

/-- C2 witness: re-settling the already settled sample obligation changes
nothing and answers the plain redirect. -/
theorem settle_settled_silent_noop_witness :
    pendencias_pay sPaid 1 50 "2026-01-13" =
      (sPaid, Response.redirectPendencias) :=
  settle_settled_silent_noop sPaid 1 50 "2026-01-13"
    ⟨1, "PAGAR", "PAGO", "Conta de luz", "2026-01-10", 100, 1, none,
      some 120, some (120 - 100)⟩ rfl rfl

/-- C2 counterexample: the claim announces a reported AlreadySettled conflict,
but the second settlement attempt returns exactly the same HTTP outcome as the
successful first settlement (a bare redirect) while changing no state — the
conflict is indistinguishable from success, i.e. a silent no-op. -/
theorem settle_settled_no_conflict_reported_cex :
    (pendencias_pay sPaid 1 50 "2026-01-13").1 = sPaid ∧
    (pendencias_pay sPaid 1 50 "2026-01-13").2 =
      (pendencias_pay sPend 1 120 "2026-01-12").2 :=
  ⟨rfl, rfl⟩

/-- C4: a successful settlement of an OPEN obligation with expected amount `E`
and paid amount `P` sets `paid_amount = P`, `diff = P - E` and
`status = "PAGO"`, and both mutable fields were unset (`none`) beforehand in
every reachable store. -/
theorem settle_finalizes_obligation (s : St) (pid : Nat) (paid : Rat)
    (today : String) (p : PendingItem) (acc : Account) (hR : Reach s)
    (hp : getPending s pid = some p) (hopen : p.status = "ABERTO")
    (ha : getAccount s p.account_id = some acc) :
    p.paid_amount = none ∧ p.diff_interest_or_discount = none ∧
    getPending (pendencias_pay s pid paid today).1 pid =
      some { p with paid_amount := some paid,
                    diff_interest_or_discount := some (paid - p.amount),
                    status := "PAGO" } := by
  have hstat : ¬ p.status = "PAGO" := by rw [hopen]; decide
  obtain ⟨hmem, hpid⟩ := getPending_some hp
  have hnull := reach_pendListOk hR p hmem hstat
  refine ⟨hnull.1, hnull.2, ?_⟩
  rw [pendencias_pay_success paid today hp hstat ha]
  dsimp only
  rw [getPending_paySucc, hp]
  simp

/-- C4 witness: the sample settlement sets the three fields on the obligation,
which were unset before. -/
theorem settle_finalizes_obligation_witness :
    getPending sPaid 1 =
      some ⟨1, "PAGAR", "PAGO", "Conta de luz", "2026-01-10", 100, 1, none,
        some 120, some (120 - 100)⟩ := by
  have hR : Reach sPend :=
    Reach.step (Reach.step Reach.init (Step.bootstrap St.empty))
      (Step.pend sBoot "Conta de luz" "2026-01-10" 100 "PAGAR" 1 none)
  exact (settle_finalizes_obligation sPend 1 120 "2026-01-12"
    ⟨1, "PAGAR", "ABERTO", "Conta de luz", "2026-01-10", 100, 1, none, none, none⟩
    ⟨1, "Conta Principal", 0⟩ hR (by decide) rfl (by decide)).2.2

/-- C5 (amended): a settlement request naming an obligation id that resolves to
no row mutates no state, but no ReferenceNotFound is reported — the handler
answers the same plain redirect as a successful settlement. -/
theorem settle_missing_silent_noop (s : St) (pid : Nat) (paid : Rat)
    (today : String) (h : getPending s pid = none) :
    pendencias_pay s pid paid today = (s, Response.redirectPendencias) :=
  pendencias_pay_notFound paid today h

/-- C5 witness: settling the nonexistent obligation 99 leaves the sample store
unchanged and answers the plain redirect. -/
theorem settle_missing_silent_noop_witness :
    pendencias_pay sPend 99 10 "2026-01-12" =
      (sPend, Response.redirectPendencias) :=
  settle_missing_silent_noop sPend 99 10 "2026-01-12" rfl

/-- C5 counterexample: the claim announces a reported ReferenceNotFound, but a
settlement of a nonexistent obligation id returns exactly the same HTTP outcome
as a successful settlement (a bare redirect) — no error is distinguishable. -/
theorem settle_missing_no_error_reported_cex :
    (pendencias_pay sPend 99 10 "2026-01-12").1 = sPend ∧
    (pendencias_pay sPend 99 10 "2026-01-12").2 =
      (pendencias_pay sPend 1 120 "2026-01-12").2 :=
  ⟨rfl, rfl⟩

/-- C3 (amended): in every reachable store, every operation changes each
existing account's balance by exactly the change in the sum of the transaction
amounts posted against that account — balances move only through transaction
posting.  The claim's absolute equality `balance = sum of transactions` fails,
because account creation installs the opening balance without posting a
transaction; the equality that holds is
`balance = opening balance + sum of transactions`. -/
theorem balance_moves_only_by_postings {s s' : St} (hR : Reach s)
    (hS : Step s s') (a a' : Account) (ha : a ∈ s.accounts)
    (ha' : a' ∈ s'.accounts) (hid : a'.id = a.id) :
    a'.balance - a.balance = trxSum s' a.id - trxSum s a.id := by
  have hok := reach_accListOk hR
  cases hS with
  | bootstrap =>
    have htr : trxSum (bootstrap_defaults s) a.id = trxSum s a.id := by
      unfold trxSum
      rw [bootstrap_defaults_transactions]
    rw [htr]
    rw [bootstrap_defaults_accounts] at ha'
    by_cases hlen : s.accounts.length = 0
    · exfalso
      rw [List.length_eq_zero] at hlen
      rw [hlen] at ha
      simp at ha
    · rw [if_neg hlen] at ha'
      rw [(hok a ha).2 a' ha' hid]
      ring
  | contas name ob =>
    have htr : trxSum (contas_create s name ob) a.id = trxSum s a.id := rfl
    rw [htr]
    have haccs : (contas_create s name ob).accounts =
        s.accounts ++ [⟨s.accounts.length + 1, name, ob⟩] := rfl
    rw [haccs] at ha'
    rcases List.mem_append.mp ha' with h' | h'
    · rw [(hok a ha).2 a' h' hid]
      ring
    · exfalso
      simp only [List.mem_singleton] at h'
      have hb := (hok a ha).1
      rw [h'] at hid
      simp only at hid
      omega
  | credores name ctype =>
    have htr : trxSum (credores_create s name ctype) a.id = trxSum s a.id := rfl
    rw [htr]
    have haccs : (credores_create s name ctype).accounts = s.accounts := rfl
    rw [haccs] at ha'
    rw [(hok a ha).2 a' ha' hid]
    ring
  | pend title dd amt kind aid cid =>
    have htr : trxSum (pendencias_create s title dd amt kind aid cid).1 a.id =
        trxSum s a.id := rfl
    rw [htr]
    have haccs : (pendencias_create s title dd amt kind aid cid).1.accounts =
        s.accounts := rfl
    rw [haccs] at ha'
    rw [(hok a ha).2 a' ha' hid]
    ring
  | pay pid amt today =>
    rcases pendencias_pay_fst_cases s pid amt today with
      hcase | ⟨p, acc, hp, hst, hacc, hcase⟩
    · rw [hcase] at ha' ⊢
      rw [(hok a ha).2 a' ha' hid]
      ring
    · rw [hcase] at ha' ⊢
      obtain ⟨accmem, accid⟩ := getAccount_some hacc
      rw [trxSum_paySucc]
      simp only [paySuccState] at ha'
      obtain ⟨b, hb, hfb⟩ := List.mem_map.mp ha'
      have hfbid : a'.id = b.id := by
        rw [← hfb]
        by_cases h : b.id = acc.id <;> simp [h]
      have hba : b = a := (hok a ha).2 b hb (by rw [← hfbid]; exact hid)
      subst hba
      by_cases hcond : b.id = acc.id
      · have haacc : acc = b := (hok b ha).2 acc accmem (by rw [hcond])
        rw [if_pos hcond] at hfb
        rw [← hfb]
        rw [if_pos (by rw [haacc])]
        rw [haacc]
        simp only
        ring
      · rw [if_neg hcond] at hfb
        rw [← hfb]
        rw [if_neg (fun h => hcond h.symm)]
        ring

/-- C3 witness: creating a second account on the bootstrapped store moves the
existing account's balance by exactly the (zero) change in its posted
transactions. -/
theorem balance_moves_only_by_postings_witness :
    (0 : Rat) - 0 =
      trxSum (contas_create sBoot "Reserva" 7) 1 - trxSum sBoot 1 := by
  have hR : Reach sBoot := Reach.step Reach.init (Step.bootstrap St.empty)
  exact balance_moves_only_by_postings hR (Step.contas sBoot "Reserva" 7)
    ⟨1, "Conta Principal", 0⟩ ⟨1, "Conta Principal", 0⟩
    (by decide) (by decide) rfl

/-- C3 counterexample: the store holding one account created with opening
balance 100 is reachable, its balance is 100, yet the sum of transactions
posted against it is 0 — balance does not equal the sum of posted
transactions. -/
theorem balance_equals_trx_sum_cex :
    Reach sOpen ∧ getAccount sOpen 1 = some ⟨1, "Poupanca", 100⟩ ∧
    trxSum sOpen 1 = 0 ∧ ¬ (100 : Rat) = 0 :=
  ⟨Reach.step Reach.init (Step.contas St.empty "Poupanca" 100),
    by decide, rfl, by decide⟩

/-- C6 (amended): obligation creation performs no validation — even when the
amount is not positive, the kind lies outside {PAGAR, RECEBER, EMPRESTIMO}, or
the account reference does not resolve, no error is reported (the handler
answers the plain success redirect) and exactly one obligation row holding the
given fields, in status "ABERTO" with `paid_amount`/`diff` unset, is appended;
no other table changes. -/
theorem create_obligation_unvalidated (s : St) (title dd : String)
    (amount : Rat) (kind : String) (aid : Nat) (cid : Option Nat)
    (_hbad : amount ≤ 0 ∨
      (¬ kind = "PAGAR" ∧ ¬ kind = "RECEBER" ∧ ¬ kind = "EMPRESTIMO") ∨
      getAccount s aid = none) :
    (pendencias_create s title dd amount kind aid cid).1.pendings =
      s.pendings ++ [⟨s.pendings.length + 1, kind, "ABERTO", title, dd, amount,
        aid, cid, none, none⟩] ∧
    (pendencias_create s title dd amount kind aid cid).2 =
      Response.redirectPendencias ∧
    (pendencias_create s title dd amount kind aid cid).1.accounts =
      s.accounts ∧
    (pendencias_create s title dd amount kind aid cid).1.transactions =
      s.transactions ∧
    (pendencias_create s title dd amount kind aid cid).1.creditors =
      s.creditors ∧
    (pendencias_create s title dd amount kind aid cid).1.users = s.users :=
  ⟨rfl, rfl, rfl, rfl, rfl, rfl⟩

/-- C6 witness: creating an obligation with unknown kind "BOGUS" against the
nonexistent account 99 still appends exactly one obligation row and redirects
as on success. -/
theorem create_obligation_unvalidated_witness :
    (pendencias_create sBoot "Divida" "2026-02-01" (-5) "BOGUS" 99
        none).1.pendings =
      sBoot.pendings ++ [⟨sBoot.pendings.length + 1, "BOGUS", "ABERTO",
        "Divida", "2026-02-01", -5, 99, none, none, none⟩] ∧
    (pendencias_create sBoot "Divida" "2026-02-01" (-5) "BOGUS" 99 none).2 =
      Response.redirectPendencias := by
  obtain ⟨h1, h2, _⟩ := create_obligation_unvalidated sBoot "Divida"
    "2026-02-01" (-5) "BOGUS" 99 none
    (Or.inr (Or.inl ⟨by decide, by decide, by decide⟩))
  exact ⟨h1, h2⟩

/-- C6 counterexample: with an unresolvable account reference (id 99), a kind
outside the enumeration and a negative amount, the creation neither fails with
ValidationError nor with ReferenceNotFound: it creates the obligation and
answers the success redirect. -/
theorem create_obligation_no_failure_cex :
    getAccount sBoot 99 = none ∧
    getPending (pendencias_create sBoot "Divida" "2026-02-01" (-5) "BOGUS" 99
        none).1 1 =
      some ⟨1, "BOGUS", "ABERTO", "Divida", "2026-02-01", -5, 99, none, none,
        none⟩ ∧
    (pendencias_create sBoot "Divida" "2026-02-01" (-5) "BOGUS" 99 none).2 =
      Response.redirectPendencias :=
  ⟨by decide, by decide, rfl⟩

/-- C7 (amended): the dashboard query handler itself only reads, and on any
store that already contains a user named "admin" and at least one account a
full query request (including the `ensure_db` before-request hook) leaves the
entire store — every user, account, creditor, transaction and obligation —
unchanged.  On stores missing the admin user or having no account, the
before-request bootstrap mutates state, so the claim's "for every starting
state" fails. -/
theorem query_preserves_initialized_state (s : St)
    (hu : (findUserByName s "admin").isSome) (hacc : s.accounts ≠ []) :
    dashboard_request s = (s, dashboard_kpis s, ultimas s 10) := by
  unfold dashboard_request
  rw [bootstrap_defaults_noop hu hacc]

/-- C7 witness: on the bootstrapped sample store a dashboard request changes
nothing and returns the KPIs of that very store. -/
theorem query_preserves_initialized_state_witness :
    dashboard_request sBoot = (sBoot, dashboard_kpis sBoot, ultimas sBoot 10) :=
  query_preserves_initialized_state sBoot (by decide) (by decide)

/-- C7 counterexample: a dashboard query against the fresh empty store mutates
it — the before-request hook inserts the admin user and the default account. -/
theorem query_mutates_uninitialized_state_cex :
    (dashboard_request St.empty).1 ≠ St.empty ∧
    (dashboard_request St.empty).1.users.length = 1 ∧
    (dashboard_request St.empty).1.accounts.length = 1 ∧
    St.empty.users.length = 0 ∧ St.empty.accounts.length = 0 := by
  decide

/-- C8: the dashboard KPIs are exactly the spec's reporting values — the total
balance is the sum of the `balance` field over all accounts, and the
open-obligation count is the number of obligations whose status is not
"PAGO". -/
theorem dashboard_kpis_match_spec (s : St) :
    (dashboard_kpis s).saldo_total = spec_totalBalance s ∧
    (dashboard_kpis s).pendencias_abertas = spec_openObligationCount s := by
  constructor
  · show (s.accounts.map (fun a => a.balance)).sum =
      s.accounts.foldr (fun a r => a.balance + r) 0
    induction s.accounts with
    | nil => rfl
    | cons a l ih => simp [ih]
  · show (s.pendings.filter (fun p => p.status != "PAGO")).length =
      s.pendings.countP (fun p => decide (¬ p.status = "PAGO"))
    have hfun : (fun p : PendingItem => p.status != "PAGO") =
        (fun p : PendingItem => decide (¬ p.status = "PAGO")) := by
      funext p
      by_cases h : p.status = "PAGO" <;> simp [bne, h]
    rw [List.countP_eq_length_filter, hfun]

/-- C9: for an OPEN obligation of any kind other than "PAGAR" and
"EMPRESTIMO" — including kinds outside the documented enumeration — settlement
credits `+|paidAmount|`, exactly as for "RECEBER": the sign computation cannot
distinguish an unrecognized kind from "RECEBER". -/
theorem settle_unknown_kind_credits (s : St) (pid : Nat) (paid : Rat)
    (today : String) (p : PendingItem) (acc : Account)
    (hp : getPending s pid = some p) (hopen : p.status = "ABERTO")
    (ha : getAccount s p.account_id = some acc)
    (hk1 : ¬ p.kind = "PAGAR") (hk2 : ¬ p.kind = "EMPRESTIMO") :
    trxAmount p.kind paid = |paid| ∧
    trxAmount p.kind paid = trxAmount "RECEBER" paid ∧
    (pendencias_pay s pid paid today).1.transactions =
      s.transactions ++ [⟨s.transactions.length + 1, acc.id,
        "[" ++ p.kind ++ "] " ++ p.title, trxAmount p.kind paid, today⟩] ∧
    getAccount (pendencias_pay s pid paid today).1 acc.id =
      some { acc with balance := acc.balance + trxAmount p.kind paid } := by
  have hamt : trxAmount p.kind paid = |paid| := by
    unfold trxAmount
    rw [if_neg ?hcond]
    case hcond =>
      rintro (h | h)
      · exact hk1 h
      · exact hk2 h
  have hstat : ¬ p.status = "PAGO" := by rw [hopen]; decide
  obtain ⟨haccmem, haccid⟩ := getAccount_some ha
  refine ⟨hamt, ?_, ?_, ?_⟩
  · rw [hamt]
    unfold trxAmount
    rw [if_neg (by decide)]
  · rw [pendencias_pay_success paid today hp hstat ha]
    rfl
  · rw [pendencias_pay_success paid today hp hstat ha]
    dsimp only
    rw [getAccount_paySucc, haccid, ha]
    simp [haccid]

/-- C9 witness: settling the kind-"CARTAO" sample obligation with 35 posts a
credit of `|35|`, indistinguishable from a "RECEBER" settlement. -/
theorem settle_unknown_kind_credits_witness :
    trxAmount "CARTAO" 35 = |(35 : Rat)| ∧
    trxAmount "CARTAO" 35 = trxAmount "RECEBER" 35 ∧
    (pendencias_pay sPendOther 1 35 "2026-03-02").1.transactions =
      sPendOther.transactions ++ [⟨sPendOther.transactions.length + 1, 1,
        "[CARTAO] Fatura", trxAmount "CARTAO" 35, "2026-03-02"⟩] ∧
    getAccount (pendencias_pay sPendOther 1 35 "2026-03-02").1 1 =
      some ⟨1, "Conta Principal", (0 : Rat) + trxAmount "CARTAO" 35⟩ :=
  settle_unknown_kind_credits sPendOther 1 35 "2026-03-02"
    ⟨1, "CARTAO", "ABERTO", "Fatura", "2026-03-01", 40, 1, none, none, none⟩
    ⟨1, "Conta Principal", 0⟩ (by decide) rfl (by decide) (by decide) (by decide)

/-- C10: the bootstrap initializer is idempotent against durable state — it
changes nothing on a store that has a user named "admin" and at least one
account, and running it twice always equals running it once. -/
theorem bootstrap_idempotent (s : St) :
    ((findUserByName s "admin").isSome → s.accounts ≠ [] →
      bootstrap_defaults s = s) ∧
    bootstrap_defaults (bootstrap_defaults s) = bootstrap_defaults s := by
  refine ⟨fun hu hacc => bootstrap_defaults_noop hu hacc, ?_⟩
  exact bootstrap_defaults_noop (bootstrap_defaults_admin s)
    (bootstrap_defaults_accounts_ne s)

/-- C10 witness: the bootstrapped sample store has the admin user and an
account, and running the bootstrap on it changes nothing. -/
theorem bootstrap_idempotent_witness :
    (findUserByName sBoot "admin").isSome ∧ sBoot.accounts ≠ [] ∧
    bootstrap_defaults sBoot = sBoot :=
  ⟨by decide, by decide, (bootstrap_idempotent sBoot).1 (by decide) (by decide)⟩

end Financas
